import Mathlib

/-!
Verification of the `mysql-cpp` header-only wrapper (src/mysql.hpp).

The development shallowly embeds the wrapper's code:
* `escape_string` (lines 15-38) is embedded over `List Char`, with the
  `size_t` index arithmetic made explicit modulo `2^64` and the
  `std::string::at` bounds check modelled by `List.getElem?`
  (an out-of-range access, which throws in C++, becomes `Except.error`).
* The native client library (`mysql_*` functions) is an external
  collaborator; it is modelled by an oracle structure.  A native call
  whose precondition requires a valid (non-NULL) handle is modelled as
  `Except.error` when the wrapper passes an absent handle to it.
* `Stmt`, `Result` and `Row` are records mirroring the classes' fields;
  move construction/assignment and destructors are pure functions that
  also report which native handles they release.
-/

/-- `2^64`, the modulus of `size_t` arithmetic on the platform targeted by
the wrapper. -/
def two64 : Nat := 2 ^ 64

/-- The characters of the `switch` at src/mysql.hpp line 21:
`'\'' '\n' '\r' '\t' '\v' '\f' '\\' '"'`. -/
def isSpecial (c : Char) : Bool :=
  c == '\'' || c == '\n' || c == '\r' || c == '\t' ||
  c == '\x0b' || c == '\x0c' || c == '\\' || c == '"'

/-- The if-chain at src/mysql.hpp lines 27-32: a newline, carriage return,
tab, form feed or vertical tab is appended as its two-character escape
form; every other special character is appended literally. -/
def escTwo (c : Char) : List Char :=
  if c == '\n' then ['\\', 'n']
  else if c == '\r' then ['\\', 'r']
  else if c == '\t' then ['\\', 't']
  else if c == '\x0c' then ['\\', 'f']
  else if c == '\x0b' then ['\\', 'v']
  else [c]

/-- The loop of `escape_string` (src/mysql.hpp lines 18-36).  `val` is the
whole input; the first list argument is the remaining suffix
`val.drop i`, `i` the current index, the last argument the accumulated
`result`.  `pev = i - 1` is computed in `size_t` arithmetic, i.e. modulo
`2^64`; the source's guard `if (pev >= 0)` is a comparison on an unsigned
value and therefore always true, so the code always evaluates
`val.at(pev)`, which throws `std::out_of_range` (here: `Except.error`)
whenever `pev` is not a valid index. -/
def escLoop (val : List Char) : List Char → Nat → List Char → Except Unit (List Char)
  | [], _, acc => .ok acc
  | c :: rest, i, acc =>
    if isSpecial c then
      match val[(i + (two64 - 1)) % two64]? with
      | none => .error ()
      | some pc =>
        escLoop val rest (i + 1) ((if pc == '\\' then acc else acc ++ ['\\']) ++ escTwo c)
    else
      escLoop val rest (i + 1) (acc ++ [c])

/-- `escape_string` (src/mysql.hpp lines 15-38). -/
def escape_string (val : List Char) : Except Unit (List Char) :=
  escLoop val val 0 []

/-- Whether the first character of the input is one of the escaped
characters (the inputs on which the loop's first iteration evaluates
`val.at((size_t)-1)`). -/
def headSpecial : List Char → Bool
  | [] => false
  | c :: _ => isSpecial c

/-- What the loop appends for position `i` of the input (derived form of
the loop body, valid for the positions the loop actually reaches without
throwing): a non-special character is copied; a special character is
prefixed by a backslash unless the previous input character is a
backslash, and then rendered by `escTwo`. -/
def renderAt (val : List Char) (i : Nat) : List Char :=
  match val[i]? with
  | none => []
  | some c =>
    if isSpecial c then
      (if val[i - 1]? = some '\\' then [] else ['\\']) ++ escTwo c
    else [c]

/-- Concatenation of the per-position renderings for positions
`i, i+1, ..., i+n-1`. -/
def blocksBetween (val : List Char) : Nat → Nat → List Char
  | _, 0 => []
  | i, n + 1 => renderAt val i ++ blocksBetween val (i + 1) n

/-- Length of the leading run of backslashes. -/
def countBs : List Char → Nat
  | [] => 0
  | c :: t => if c == '\\' then countBs t + 1 else 0

/-- Length of the trailing run of backslashes; a character directly after
an even-length trailing run is unescaped in the SQL sense. -/
def bsRun (l : List Char) : Nat := countBs l.reverse

/-- The three characters the spec singles out: single quote, double quote,
backslash. -/
def isQuoteClass (c : Char) : Bool :=
  c == '\'' || c == '"' || c == '\\'

/-- The spec's one-character-lookback notion of "already escaped":
position `i` is directly preceded by a backslash that is itself
unescaped (even backslash run before it). -/
def precededByUnescapedBackslash (val : List Char) (i : Nat) : Bool :=
  i != 0 && val[i - 1]? == some '\\' && bsRun (val.take (i - 1)) % 2 == 0

/-! ## Model of the native client library and the wrapper classes

Native handles (`MYSQL*`, `MYSQL_STMT*`, `MYSQL_RES*`, `MYSQL_ROW`,
`unsigned long*`) are modelled as `Option Nat`: `none` is a null
pointer.  The behaviour of the native library is abstracted by a
`NativeOracle`; each of its fields gives the value a native call returns
when invoked on a valid handle.  A native call whose documented
precondition requires a valid handle is modelled as a function that is
`Except.error` on `none`: reaching that error means the wrapper passed a
null handle to the native library (undefined behaviour in C). -/

/-- Value conversions of the C ABI targeted by the wrapper: `int` is 32
bits, `unsigned long` 64 bits.  `toCInt` is the (modular) conversion of
an unsigned value to `int`; `uLongOfInt` the conversion of an `int` to
`unsigned long`. -/
def toCInt (n : Nat) : Int := ((n : Int) + 2 ^ 31) % 2 ^ 32 - 2 ^ 31

def uLongOfInt (z : Int) : Nat := (z % 2 ^ 64).toNat

/-- Abstraction of the native client library's behaviour on valid
handles.  Connection parameters and SQL text that only pass through to
the native side are folded into the oracle's functions. -/
structure NativeOracle where
  insertId : Nat → Nat
  affectedRows : Nat → Nat
  moreResults : Nat → Bool
  nextResult : Nat → Int
  numFields : Nat → Nat
  useResult : Nat → Option Nat
  realQuery : Nat → String → Int
  errorText : Nat → String
  stmtInit : Nat → Option Nat
  stmtPrepare : Nat → String → Int
  stmtParamCount : Nat → Nat
  connInit : Option Nat
  realConnect : Nat → Option Nat
  fetchRow : Nat → Option Nat
  fetchLengths : Nat → Option Nat

/-- A base oracle used to build the concrete instances appearing in
witnesses and counterexamples. -/
def baseOracle : NativeOracle where
  insertId := fun _ => 0
  affectedRows := fun _ => 0
  moreResults := fun _ => false
  nextResult := fun _ => 0
  numFields := fun _ => 0
  useResult := fun _ => none
  realQuery := fun _ _ => 0
  errorText := fun _ => ""
  stmtInit := fun _ => none
  stmtPrepare := fun _ _ => 0
  stmtParamCount := fun _ => 0
  connInit := none
  realConnect := fun _ => none
  fetchRow := fun _ => none
  fetchLengths := fun _ => none

-- Native calls that require a valid handle (modelled as `Except`).

def mysql_more_results (o : NativeOracle) : Option Nat → Except Unit Bool
  | none => .error ()
  | some h => .ok (o.moreResults h)

def mysql_next_result_native (o : NativeOracle) : Option Nat → Except Unit Int
  | none => .error ()
  | some h => .ok (o.nextResult h)

def mysql_num_fields (o : NativeOracle) : Option Nat → Except Unit Nat
  | none => .error ()
  | some h => .ok (o.numFields h)

def mysql_fetch_row_native (o : NativeOracle) : Option Nat → Except Unit (Option Nat)
  | none => .error ()
  | some h => .ok (o.fetchRow h)

def mysql_fetch_lengths_native (o : NativeOracle) : Option Nat → Except Unit (Option Nat)
  | none => .error ()
  | some h => .ok (o.fetchLengths h)

-- ### MYSQL_BIND and Stmt (src/mysql.hpp lines 103-181)

/-- The two `enum_field_types` values the wrapper uses. -/
inductive FieldType where
  | MYSQL_TYPE_LONG
  | MYSQL_TYPE_STRING
deriving DecidableEq

/-- What a binding slot's `buffer` pointer designates. -/
inductive BufPtr where
  | null
  | intVal (v : Int)
  | strBytes (s : List Char)
deriving DecidableEq

/-- What a binding slot's `length` pointer designates: the string
overload passes `&(params[i].buffer_length)`, i.e. the address of the
slot's own `buffer_length` field. -/
inductive LengthPtr where
  | null
  | selfBufferLength
deriving DecidableEq

/-- The fields of `MYSQL_BIND` that the wrapper assigns.  A `memset` to
zero yields the `zero` slot below. -/
structure MYSQL_BIND where
  buffer_type : Option FieldType := none
  buffer : BufPtr := .null
  buffer_length : Nat := 0
  is_null : Option Unit := none
  length : LengthPtr := .null
deriving DecidableEq

def MYSQL_BIND.zero : MYSQL_BIND := {}

/-- The value designated by the slot's `length` pointer, if any: with
`selfBufferLength` it reads the slot's own `buffer_length`. -/
def MYSQL_BIND.designatedLength (b : MYSQL_BIND) : Option Nat :=
  match b.length with
  | .null => none
  | .selfBufferLength => some b.buffer_length

/-- `Stmt`'s fields (src/mysql.hpp lines 104-108).  `params` is a
pointer to an array (`none` = null); `str_length` is never initialised
by the constructors and is modelled as an ordinary field. -/
structure Stmt where
  stmt : Option Nat := none
  count : Nat := 0
  params : Option (List MYSQL_BIND) := none
  str_length : Nat := 0
deriving DecidableEq

/-- `Stmt()` (line 110): `stmt(0), count(0), params(0)`. -/
def Stmt.empty : Stmt := {}

/-- `Stmt(MYSQL_STMT*)` (lines 111-114): `count` from
`mysql_stmt_param_count`, `params` a zero-initialised array of `count`
slots. -/
def Stmt.fromHandle (o : NativeOracle) (sh : Nat) : Stmt :=
  { stmt := some sh
    count := o.stmtParamCount sh
    params := some (List.replicate (o.stmtParamCount sh) MYSQL_BIND.zero)
    str_length := 0 }

/-- `operator bool` (lines 139-141). -/
def Stmt.toBool (s : Stmt) : Bool := s.stmt.isSome

/-- The raw `bind_param` overload (lines 144-151): it assigns the slot's
`buffer_type`, `buffer`, `buffer_length` (an `int` parameter, widened to
`unsigned long` on assignment), `is_null` and `length`. -/
def Stmt.bind_param_raw_slot (buffer_type : FieldType) (buffer : BufPtr)
    (buffer_length : Int) (is_null : Option Unit) (length : LengthPtr) : MYSQL_BIND :=
  { buffer_type := some buffer_type
    buffer := buffer
    buffer_length := uLongOfInt buffer_length
    is_null := is_null
    length := length }

/-- The slot written by the `std::string` overload of `bind_param`
(lines 158-161): type `MYSQL_TYPE_STRING`, buffer `x.c_str()`,
buffer length `x.size()` (narrowed through the `int` parameter), null
`is_null`, and `length` pointing at the slot's own `buffer_length`. -/
def stringSlotFor (x : List Char) : MYSQL_BIND :=
  Stmt.bind_param_raw_slot .MYSQL_TYPE_STRING (.strBytes x) (toCInt x.length)
    none .selfBufferLength

/-- `bind_param(int, const std::string&)` (lines 158-161) writing slot
`i` of `params`.  A null `params` or an out-of-range index makes the
slot access undefined behaviour (`Except.error`). -/
def Stmt.bind_param_str (s : Stmt) (i : Nat) (x : List Char) : Except Unit Stmt :=
  match s.params with
  | none => .error ()
  | some ps =>
    if i < ps.length then
      .ok { s with params := some (ps.set i (stringSlotFor x)) }
    else .error ()

/-- `Stmt(Stmt&&)` (lines 124-127): the destination copies all four
fields, the source's `stmt` and `params` are nulled.  Returns
(destination, source after the move). -/
def Stmt.moveCtor (x : Stmt) : Stmt × Stmt :=
  ({ stmt := x.stmt, count := x.count, params := x.params, str_length := x.str_length },
   { x with stmt := none, params := none })

/-- `operator=(Stmt&&)` (lines 129-137): same field transfer; the
target's previous `stmt` handle is not closed (it leaks, it is not
double-freed).  Returns (target, source after the move). -/
def Stmt.moveAssign (_self x : Stmt) : Stmt × Stmt :=
  ({ stmt := x.stmt, count := x.count, params := x.params, str_length := x.str_length },
   { x with stmt := none, params := none })

/-- `~Stmt` (lines 116-119): closes the statement handle iff `stmt` is
non-null (`delete [] params` releases memory, not a native handle).
Returns the list of closed statement handles. -/
def Stmt.dtor (s : Stmt) : List Nat :=
  match s.stmt with
  | some h => [h]
  | none => []

-- ### Row (src/mysql.hpp lines 183-209)

/-- `Row`'s fields: the row pointer and the lengths pointer. -/
structure Row where
  row : Option Nat := none
  lengths : Option Nat := none
deriving DecidableEq

/-- `Row(Row&&)` (lines 191-194): destination takes both pointers, the
source is nulled.  Returns (destination, source after the move). -/
def Row.moveCtor (x : Row) : Row × Row :=
  ({ row := x.row, lengths := x.lengths }, { row := none, lengths := none })

/-- `operator=(Row&&)` (lines 196-200) with an explicit recursion
budget.  The body is `using std::swap; swap(*this, x);` and `Row` has no
dedicated `swap`, so the generic `std::swap(a, b)` is chosen, which
expands to `Row tmp(std::move(a)); a = std::move(b); b = std::move(tmp);`
— each of the two inner assignments calls `operator=(Row&&)` again.
Every call consumes one unit of fuel; `none` means the call did not
finish within the given budget.  Returns `some (target, source)` on
completion. -/
def Row.moveAssignFuel : Nat → Row → Row → Option (Row × Row)
  | 0, _, _ => none
  | n + 1, a, b =>
    match Row.moveAssignFuel n (Row.moveCtor a).2 b with
    | none => none
    | some (a2, b1) =>
      match Row.moveAssignFuel n b1 (Row.moveCtor a).1 with
      | none => none
      | some (b2, _) => some (a2, b2)

/-- `operator bool` (lines 202-204). -/
def Row.toBool (r : Row) : Bool := r.row.isSome

-- ### Result (src/mysql.hpp lines 211-271)

/-- `Result`'s fields: the result-set handle and the cached field
count. -/
structure Result where
  res : Option Nat := none
  num_fields : Int := 0
deriving DecidableEq

/-- `Result()` (line 216): `res(0), num_fields(0)`. -/
def Result.empty : Result := {}

/-- `Result(MYSQL_RES*)` (line 217): caches
`num_fields(mysql_num_fields(res))` — the native call is made with
whatever pointer was passed, including null. -/
def Result.ofRes (o : NativeOracle) (res : Option Nat) : Except Unit Result :=
  match mysql_num_fields o res with
  | .error e => .error e
  | .ok n => .ok { res := res, num_fields := toCInt n }

/-- `operator bool` (lines 229-231). -/
def Result.toBool (r : Result) : Bool := r.res.isSome

/-- `Result(Result&&)` (lines 218-223): destination takes `res` and
`num_fields`, source's `res` is nulled.  Returns (destination, source
after the move). -/
def Result.moveCtor (x : Result) : Result × Result :=
  ({ res := x.res, num_fields := x.num_fields }, { x with res := none })

/-- `operator=(Result&&)` (lines 233-239): first calls
`mysql_free_result` on the target's current `res` (unconditionally),
then transfers the fields and nulls the source's `res`.  Returns
((target, source after the move), the pointers passed to
`mysql_free_result`). -/
def Result.moveAssign (self x : Result) : (Result × Result) × List (Option Nat) :=
  (({ res := x.res, num_fields := x.num_fields }, { x with res := none }), [self.res])

/-- `~Result` (lines 225-227): frees the result set iff `res` is
non-null.  Returns the pointers passed to `mysql_free_result`. -/
def Result.dtor (r : Result) : List (Option Nat) :=
  match r.res with
  | some h => [some h]
  | none => []

/-- `Result::fetch_row` (lines 257-261): calls `mysql_fetch_row` and
`mysql_fetch_lengths` on `res` without any null check and wraps the two
pointers in a `Row`. -/
def Result.fetch_row (o : NativeOracle) (r : Result) : Except Unit Row :=
  match mysql_fetch_row_native o r.res with
  | .error e => .error e
  | .ok row =>
    match mysql_fetch_lengths_native o r.res with
    | .error e => .error e
    | .ok lengths => .ok { row := row, lengths := lengths }

-- ### The connection class `mysql` (src/mysql.hpp lines 40-101, 273-308)

/-- `mysql::insert_id` (lines 77-83): guarded; returns `-1` when the
handle is absent, and the native value (a `my_ulonglong`, narrowed to
`int` by the `return`) otherwise. -/
def mysql.insert_id (o : NativeOracle) (handle : Option Nat) : Int :=
  match handle with
  | some h => toCInt (o.insertId h)
  | none => -1

/-- `mysql::affected_rows` (lines 84-90): same guard, same narrowing. -/
def mysql.affected_rows (o : NativeOracle) (handle : Option Nat) : Int :=
  match handle with
  | some h => toCInt (o.affectedRows h)
  | none => -1

/-- `mysql::more_results` (lines 91-94): `return
mysql_more_results(handle);` — no guard; the `my_bool` result converts
to `int`. -/
def mysql.more_results (o : NativeOracle) (handle : Option Nat) : Except Unit Int :=
  match mysql_more_results o handle with
  | .error e => .error e
  | .ok b => .ok (if b then 1 else 0)

/-- `mysql::next_result` (lines 283-288): `int x =
mysql_next_result(handle); return x;` — no guard. -/
def mysql.next_result (o : NativeOracle) (handle : Option Nat) : Except Unit Int :=
  mysql_next_result_native o handle

/-- `mysql::use_result` (lines 273-281).  The source reads:
`MYSQL_RES* result = mysql_use_result(handle); if (!result) { Result{}; }
return Result{result};` — the statement inside the `if` constructs a
temporary and discards it (there is no `return`), so control always
falls through to `Result{result}`, which calls `mysql_num_fields` on
`result` even when `result` is null. -/
def mysql.use_result (o : NativeOracle) (handle : Option Nat) : Except Unit Result :=
  match handle with
  | none => .error ()
  | some h => Result.ofRes o (o.useResult h)

/-- `mysql::prepare` (lines 290-298): `mysql_stmt_init`, then
`mysql_stmt_prepare`; on a nonzero prepare result it returns `Stmt{}`
without printing anything (and leaks the initialised statement handle);
on success it returns `Stmt{stmt}`.  A null connection handle or a null
`mysql_stmt_init` result makes the subsequent native call undefined
behaviour.  Returns (stderr lines, result). -/
def mysql.prepare (o : NativeOracle) (handle : Option Nat) (s : String) :
    List String × Except Unit Stmt :=
  match handle with
  | none => ([], .error ())
  | some h =>
    match o.stmtInit h with
    | none => ([], .error ())
    | some sh =>
      if o.stmtPrepare sh s ≠ 0 then ([], .ok Stmt.empty)
      else ([], .ok (Stmt.fromHandle o sh))

/-- `mysql::query` (lines 300-308): `mysql_real_query`; on a nonzero
result it prints `"Error: " << mysql_error(handle)` to `std::cerr` and
returns `Result{}`; otherwise it returns `use_result()`.  Returns
(stderr lines, result). -/
def mysql.query (o : NativeOracle) (handle : Option Nat) (s : String) :
    List String × Except Unit Result :=
  match handle with
  | none => ([], .error ())
  | some h =>
    if o.realQuery h s ≠ 0 then
      (["Error: " ++ o.errorText h ++ "\n"], .ok Result.empty)
    else
      ([], mysql.use_result o (some h))

/-- `mysql::connect` (lines 48-62) restricted to the outputs the claims
are about: the returned `bool`, the new value of `handle`, and the
stderr lines.  The preamble `if (is_open()) close();` only affects the
previous handle, which is overwritten by `handle = mysql_init(nullptr)`
in every path.  A null `mysql_init` result returns `false` with nothing
printed; a null `mysql_real_connect` result prints
`"Failed to connect to database: Error: " << mysql_error(handle)`,
closes the handle and returns `false`. -/
def mysql.connect (o : NativeOracle) (_handle : Option Nat) :
    Bool × Option Nat × List String :=
  match o.connInit with
  | none => (false, none, [])
  | some hi =>
    match o.realConnect hi with
    | some _ => (true, some hi, [])
    | none => (false, none, ["Failed to connect to database: Error: " ++ o.errorText hi ++ "\n"])

-- ### Concrete values used by witnesses and counterexamples

/-- Oracle for the C4 scenario: the query succeeds at the native level
(`mysql_real_query` returns 0) but `mysql_use_result` yields no result
set (null). -/
def oracleC4 : NativeOracle :=
  { baseOracle with realQuery := fun _ _ => 0, useResult := fun _ => none }

/-- Oracle for the C5 scenario: `mysql_stmt_init` succeeds,
`mysql_stmt_prepare` fails, `mysql_real_query` fails, `mysql_init`
succeeds and `mysql_real_connect` fails; the native error text is
`boom`. -/
def oracleC5 : NativeOracle :=
  { baseOracle with
      stmtInit := fun _ => some 7
      stmtPrepare := fun _ _ => 1
      realQuery := fun _ _ => 1
      errorText := fun _ => "boom"
      connInit := some 3
      realConnect := fun _ => none }

/-- A 2^31-byte string: its `size_t` length does not survive the
narrowing through the `int buffer_length` parameter. -/
def bigStr : List Char := List.replicate (2 ^ 31) 'a'

/-- A prepared statement with one parameter slot. -/
def stmtOneSlot : Stmt :=
  { stmt := some 1, count := 1, params := some [MYSQL_BIND.zero], str_length := 0 }

/-- SQL text used by concrete scenarios (its content is irrelevant: the
oracle decides the outcome). -/
def sqlText : String := "SELECT 1"

deriving instance DecidableEq for Except

/-- A `Result` holding handle 5. -/
def resA : Result := { res := some 5, num_fields := 2 }

/-- A `Result` holding a different handle, used as a move-assignment
target. -/
def resB : Result := { res := some 4, num_fields := 0 }

/-- A `Stmt` holding statement handle 7. -/
def stmtA : Stmt := { stmt := some 7, count := 0, params := none, str_length := 0 }

/-- The move-semantics contract for `Result` and `Stmt` holding handles
`h` and `g`: after a move construction or move assignment the
destination holds the original handle, the source evaluates false, and
running the destructors of both (plus, for `Result` assignment, the
unconditional `mysql_free_result` of the target's previous pointer)
passes the moved handle to the native release function exactly once. -/
def moveReleaseSpec (r d : Result) (h : Nat) (s t : Stmt) (g : Nat) : Prop :=
  ((Result.moveCtor r).1.res = some h ∧
   Result.toBool (Result.moveCtor r).2 = false ∧
   ((Result.moveCtor r).1.dtor ++ (Result.moveCtor r).2.dtor).count (some h) = 1) ∧
  ((Result.moveAssign d r).1.1.res = some h ∧
   Result.toBool (Result.moveAssign d r).1.2 = false ∧
   ((Result.moveAssign d r).2 ++ (Result.moveAssign d r).1.1.dtor ++
     (Result.moveAssign d r).1.2.dtor).count (some h) = 1) ∧
  ((Stmt.moveCtor s).1.stmt = some g ∧
   Stmt.toBool (Stmt.moveCtor s).2 = false ∧
   ((Stmt.moveCtor s).1.dtor ++ (Stmt.moveCtor s).2.dtor).count g = 1) ∧
  ((Stmt.moveAssign t s).1.stmt = some g ∧
   Stmt.toBool (Stmt.moveAssign t s).2 = false ∧
   ((Stmt.moveAssign t s).1.dtor ++ (Stmt.moveAssign t s).2.dtor).count g = 1)

-- ### Arithmetic of the `size_t` index

theorem pev_zero : (0 + (two64 - 1)) % two64 = two64 - 1 := by
  have h : two64 - 1 < two64 := by simp [two64]
  simp only [Nat.zero_add]
  exact Nat.mod_eq_of_lt h

theorem pev_succ (i : Nat) (h : i < two64) :
    (i + 1 + (two64 - 1)) % two64 = i := by
  have h1 : i + 1 + (two64 - 1) = i + two64 := by
    have : 1 ≤ two64 := by simp [two64]
    omega
  rw [h1, Nat.add_mod_right]
  exact Nat.mod_eq_of_lt h

-- ### The loop computes the concatenation of the per-position blocks

theorem escLoop_ok (val : List Char) (hlen : val.length < two64) :
    ∀ n i acc, i + n = val.length → 1 ≤ i →
      escLoop val (val.drop i) i acc = .ok (acc ++ blocksBetween val i n) := by
  intro n
  induction n with
  | zero =>
    intro i acc hi _
    have hd : val.drop i = [] := by
      apply List.drop_eq_nil_of_le
      omega
    rw [hd]
    simp [escLoop, blocksBetween]
  | succ n ih =>
    intro i acc hi h1
    have hilt : i < val.length := by omega
    have hd : val.drop i = val[i] :: val.drop (i + 1) :=
      List.drop_eq_getElem_cons hilt
    have hpev : (i + (two64 - 1)) % two64 = i - 1 := by
      have : i = (i - 1) + 1 := by omega
      rw [this]
      exact pev_succ (i - 1) (by omega)
    have hprevlt : i - 1 < val.length := by omega
    have hprev : val[i - 1]? = some val[i - 1] := List.getElem?_eq_getElem hprevlt
    rw [hd]
    by_cases hs : isSpecial val[i]
    · simp only [escLoop, if_pos hs, hpev, hprev]
      have step := ih (i + 1) ((if val[i - 1] == '\\' then acc else acc ++ ['\\']) ++ escTwo val[i])
        (by omega) (by omega)
      rw [step]
      have hrender : renderAt val i =
          (if val[i - 1]? = some '\\' then [] else ['\\']) ++ escTwo val[i] := by
        simp [renderAt, List.getElem?_eq_getElem hilt, hs]
      rw [blocksBetween, hrender, hprev]
      by_cases hbs : val[i - 1] = '\\'
      · simp [hbs]
      · have : (val[i - 1] == '\\') = false := by simp [hbs]
        simp [this, hbs]
    · rw [escLoop, if_neg (by simp_all)]
      have step := ih (i + 1) (acc ++ [val[i]]) (by omega) (by omega)
      rw [step]
      have hrender : renderAt val i = [val[i]] := by
        simp [renderAt, List.getElem?_eq_getElem hilt, hs]
      rw [blocksBetween, hrender]
      simp

/-- When the input does not begin with an escaped character (and is of a
length `size_t` can count), the loop never throws and the output is the
concatenation of the per-position renderings. -/
theorem escape_eq_blocks (val : List Char) (hlen : val.length < two64)
    (h0 : headSpecial val = false) :
    escape_string val = .ok (blocksBetween val 0 val.length) := by
  cases val with
  | nil => rfl
  | cons c rest =>
    have hs : isSpecial c = false := h0
    have hd : (c :: rest).drop 1 = rest := rfl
    rw [escape_string, escLoop, if_neg (by simp [hs])]
    have := escLoop_ok (c :: rest) hlen rest.length 1 [c] (by simp; omega) (by omega)
    rw [hd] at this
    simp only [Nat.zero_add, List.nil_append]
    rw [this]
    have h00 : renderAt (c :: rest) 0 = [c] := by
      simp [renderAt, hs]
    show _ = Except.ok (blocksBetween (c :: rest) 0 (rest.length + 1))
    rw [blocksBetween, h00]

/-- When the input begins with an escaped character, the first iteration
evaluates `val.at((size_t)-1)`, which is out of range for any input
shorter than `2^64`, so the function throws. -/
theorem escape_head_special_throws (val : List Char) (hlen : val.length < two64)
    (h0 : headSpecial val = true) :
    escape_string val = .error () := by
  cases val with
  | nil => simp [headSpecial] at h0
  | cons c rest =>
    have hs : isSpecial c = true := h0
    rw [escape_string, escLoop, if_pos hs, pev_zero]
    have hnone : (c :: rest)[two64 - 1]? = none := by
      apply List.getElem?_eq_none
      simp only [List.length_cons] at hlen ⊢
      omega
    rw [hnone]

theorem head_not_special_of_ok (val : List Char) (out : List Char)
    (hlen : val.length < two64) (h : escape_string val = .ok out) :
    headSpecial val = false := by
  by_cases h0 : headSpecial val = true
  · rw [escape_head_special_throws val hlen h0] at h
    exact absurd h (by simp)
  · simpa using h0

-- ### Splitting the rendered output

theorem blocksBetween_snoc (val : List Char) :
    ∀ n i, blocksBetween val i (n + 1) = blocksBetween val i n ++ renderAt val (i + n) := by
  intro n
  induction n with
  | zero => intro i; simp [blocksBetween]
  | succ n ih =>
    intro i
    rw [blocksBetween, ih (i + 1), blocksBetween]
    simp only [List.append_assoc]
    have : i + 1 + n = i + (n + 1) := by omega
    rw [this]

theorem blocksBetween_add (val : List Char) :
    ∀ m n a, blocksBetween val a (m + n) =
      blocksBetween val a m ++ blocksBetween val (a + m) n := by
  intro m
  induction m with
  | zero => intro n a; simp [blocksBetween]
  | succ m ih =>
    intro n a
    have h1 : m + 1 + n = (m + n) + 1 := by omega
    have e1 : blocksBetween val a ((m + n) + 1) =
        renderAt val a ++ blocksBetween val (a + 1) (m + n) := rfl
    have e2 : blocksBetween val a (m + 1) =
        renderAt val a ++ blocksBetween val (a + 1) m := rfl
    rw [h1, e1, ih n (a + 1), e2]
    have h2 : a + 1 + m = a + (m + 1) := by omega
    rw [h2, List.append_assoc]

-- ### Trailing backslash runs

theorem bsRun_nil : bsRun [] = 0 := rfl

theorem bsRun_snoc (l : List Char) (c : Char) :
    bsRun (l ++ [c]) = if c = '\\' then bsRun l + 1 else 0 := by
  unfold bsRun
  rw [List.reverse_append]
  by_cases hc : c = '\\'
  · simp [countBs, hc]
  · simp [countBs, hc]

theorem bsRun_snoc_bs (l : List Char) : bsRun (l ++ ['\\']) = bsRun l + 1 := by
  rw [bsRun_snoc]; simp

theorem bsRun_snoc_two_bs (l : List Char) : bsRun (l ++ ['\\', '\\']) = bsRun l + 2 := by
  have h : l ++ ['\\', '\\'] = (l ++ ['\\']) ++ ['\\'] := by simp
  rw [h, bsRun_snoc_bs, bsRun_snoc_bs]

/-- Any rendered block for a character other than a backslash ends in a
character other than a backslash. -/
theorem renderAt_last_not_bs (val : List Char) (i : Nat) (c : Char)
    (hi : val[i]? = some c) (hc : ¬ c = '\\') :
    ∃ l d, renderAt val i = l ++ [d] ∧ ¬ d = '\\' := by
  simp only [renderAt, hi]
  by_cases hs : isSpecial c
  · rw [if_pos hs]
    set pre := if val[i - 1]? = some '\\' then ([] : List Char) else ['\\'] with hpre
    unfold escTwo
    by_cases h1 : c == '\n'
    · exact ⟨pre ++ ['\\'], 'n', by simp [h1], by decide⟩
    · by_cases h2 : c == '\r'
      · exact ⟨pre ++ ['\\'], 'r', by simp [h1, h2], by decide⟩
      · by_cases h3 : c == '\t'
        · exact ⟨pre ++ ['\\'], 't', by simp [h1, h2, h3], by decide⟩
        · by_cases h4 : c == '\x0c'
          · exact ⟨pre ++ ['\\'], 'f', by simp [h1, h2, h3, h4], by decide⟩
          · by_cases h5 : c == '\x0b'
            · exact ⟨pre ++ ['\\'], 'v', by simp [h1, h2, h3, h4, h5], by decide⟩
            · exact ⟨pre, c, by simp [h1, h2, h3, h4, h5], hc⟩
  · rw [if_neg hs]
    exact ⟨[], c, rfl, hc⟩

theorem bsRun_append_renderAt_zero (val : List Char) (i : Nat) (c : Char)
    (hi : val[i]? = some c) (hc : ¬ c = '\\') (a : List Char) :
    bsRun (a ++ renderAt val i) = 0 := by
  obtain ⟨l, d, hld, hd⟩ := renderAt_last_not_bs val i c hi hc
  rw [hld, ← List.append_assoc, bsRun_snoc, if_neg hd]

theorem take_snoc (val : List Char) (i : Nat) (h : i < val.length) :
    val.take (i + 1) = val.take i ++ [val[i]] := by
  rw [List.take_succ, List.getElem?_eq_getElem h]
  rfl

theorem headSpecial_eq (val : List Char) (c : Char) (h : val[0]? = some c) :
    headSpecial val = isSpecial c := by
  cases val with
  | nil => simp at h
  | cons a rest =>
    have ha : a = c := by simpa using h
    rw [← ha]
    rfl

/-- The trailing backslash run of the rendered output up to position `i`:
it is empty when the input's run up to `i` is empty, and one longer than
the input's run otherwise (the first backslash of an input run is doubled
by the escaper, the later ones are copied singly). -/
theorem bsRun_blocks (val : List Char) (h0 : headSpecial val = false) :
    ∀ i, i ≤ val.length →
      bsRun (blocksBetween val 0 i) =
        if bsRun (val.take i) = 0 then 0 else bsRun (val.take i) + 1 := by
  intro i
  induction i with
  | zero => intro _; simp [blocksBetween, bsRun_nil]
  | succ i ih =>
    intro hle
    have hi : i < val.length := by omega
    have hblocks : blocksBetween val 0 (i + 1) = blocksBetween val 0 i ++ renderAt val i := by
      have h := blocksBetween_snoc val i 0
      simpa using h
    have htake : val.take (i + 1) = val.take i ++ [val[i]] := take_snoc val i hi
    have hgl : val[i]? = some val[i] := List.getElem?_eq_getElem hi
    rw [hblocks, htake]
    by_cases hc : val[i] = '\\'
    · have hs : isSpecial val[i] = true := by rw [hc]; decide
      rcases Nat.eq_zero_or_pos i with h00 | hpos
      · exfalso
        subst h00
        have hh := headSpecial_eq val val[0] hgl
        rw [h0] at hh
        rw [hs] at hh
        exact absurd hh (by simp)
      · have hj : i - 1 < val.length := by omega
        have hprev : val[i - 1]? = some val[i - 1] := List.getElem?_eq_getElem hj
        have hesc : escTwo val[i] = ['\\'] := by rw [hc]; rfl
        have htakei : val.take i = val.take (i - 1) ++ [val[i - 1]] := by
          have h := take_snoc val (i - 1) hj
          have h2 : i - 1 + 1 = i := by omega
          rw [h2] at h
          exact h
        by_cases hpc : val[i - 1] = '\\'
        · have hrender : renderAt val i = ['\\'] := by
            simp only [renderAt, hgl, hs, if_true, hprev, hpc, hesc]
            simp
          have hti : bsRun (val.take i) = bsRun (val.take (i - 1)) + 1 := by
            rw [htakei, bsRun_snoc, if_pos hpc]
          rw [hrender, bsRun_snoc_bs, hc, bsRun_snoc_bs, ih (by omega)]
          have hne : ¬ bsRun (val.take i) = 0 := by omega
          rw [if_neg hne, if_neg (by omega : ¬ bsRun (val.take i) + 1 = 0)]
        · have hprevne : ¬ val[i - 1]? = some '\\' := by
            rw [hprev]
            simp [hpc]
          have hrender : renderAt val i = ['\\', '\\'] := by
            simp only [renderAt, hgl, hs, if_true, if_neg hprevne, hesc]
            rfl
          have hti : bsRun (val.take i) = 0 := by
            rw [htakei, bsRun_snoc, if_neg hpc]
          rw [hrender, bsRun_snoc_two_bs, hc, bsRun_snoc_bs, ih (by omega)]
          rw [hti]
          simp
    · rw [bsRun_append_renderAt_zero val i val[i] hgl hc, bsRun_snoc, if_neg hc]
      simp

/-! ## The claims -/

/-- Claim C1, counterexample.  The claim says a literal newline byte is
replaced by exactly the two-character sequence backslash-n.  On the
input `x` + newline the code first inserts a lookback backslash (the
newline is not preceded by a backslash) and then appends the
two-character form, so the newline is rendered as the three characters
backslash-backslash-n, not the two the claim requires. -/
theorem escape_newline_not_two_chars :
    escape_string ['x', '\n'] = .ok ['x', '\\', '\\', 'n'] ∧
    escape_string ['x', '\n'] ≠ .ok ['x', '\\', 'n'] :=
  ⟨rfl, by decide⟩

/-- Claim C1, amended.  For every input string (of a length `size_t` can
count) whose first character is not one of the escaped characters,
`escape_string` returns normally and its output is the concatenation of
the per-position renderings; a newline, carriage return, tab, form feed
or vertical tab that is directly preceded by a backslash in the input is
rendered as exactly its two-character escape form (`escTwo`), while one
not preceded by a backslash is rendered as a backslash followed by that
two-character form (three characters in total). -/
theorem escape_control_char_rendering (val : List Char) (hlen : val.length < two64)
    (h0 : headSpecial val = false) :
    escape_string val = .ok (blocksBetween val 0 val.length) ∧
    ∀ i c, val[i]? = some c →
      (c = '\n' ∨ c = '\r' ∨ c = '\t' ∨ c = '\x0c' ∨ c = '\x0b') →
      renderAt val i = (if val[i - 1]? = some '\\' then [] else ['\\']) ++ escTwo c := by
  refine ⟨escape_eq_blocks val hlen h0, ?_⟩
  intro i c hi hc
  have hs : isSpecial c = true := by
    rcases hc with h | h | h | h | h <;> rw [h] <;> decide
  simp [renderAt, hi, hs]

/-- Witness for C1's amended theorem at the input `x` + newline: the
hypotheses hold, the output is as characterised, and the newline (not
preceded by a backslash) is rendered as backslash-backslash-n. -/
theorem escape_control_char_rendering_witness :
    (['x', '\n'] : List Char).length < two64 ∧ headSpecial ['x', '\n'] = false ∧
    escape_string ['x', '\n'] = .ok (blocksBetween ['x', '\n'] 0 2) ∧
    renderAt ['x', '\n'] 1 = ['\\', '\\', 'n'] :=
  ⟨by decide, by decide,
   (escape_control_char_rendering ['x', '\n'] (by decide) (by decide)).1,
   ((escape_control_char_rendering ['x', '\n'] (by decide) (by decide)).2 1 '\n'
     rfl (Or.inl rfl)).trans (by decide)⟩

/-- Claim C2 (code bug).  The claim says `escape_string` returns
normally on every input, including a string whose first character is one
of the characters to be escaped.  In the code `pev` is a `size_t`, so
the guard `if (pev >= 0)` is always true and the first iteration on such
an input evaluates `val.at((size_t)-1)`, which throws
`std::out_of_range`: the empty string is fine, but a leading quote
throws. -/
theorem escape_throws_on_leading_special :
    escape_string [] = .ok [] ∧ escape_string ['\''] = .error () :=
  ⟨rfl, rfl⟩

/-- Claim C3.  Whenever `escape_string` returns an output: (1) the
output is the concatenation of the per-position renderings; (2) every
single quote, double quote or backslash that required escaping (was not
directly preceded by an unescaped backslash in the input) ends its
rendered block and sits after an odd trailing run of backslashes in the
output up to that block, i.e. it is escaped in the output; (3) a special
character directly preceded by a backslash in the input (in particular
by an unescaped one, the claim's condition) gets no additional backslash
inserted: its block is exactly `escTwo`. -/
theorem escape_no_unescaped_requiring (val out : List Char) (hlen : val.length < two64)
    (h : escape_string val = .ok out) :
    out = blocksBetween val 0 val.length ∧
    (∀ i c, val[i]? = some c → isQuoteClass c = true →
      precededByUnescapedBackslash val i = false →
      bsRun (blocksBetween val 0 i ++ (renderAt val i).dropLast) % 2 = 1 ∧
      (renderAt val i).getLast? = some c ∧
      out = blocksBetween val 0 i ++ renderAt val i ++
        blocksBetween val (i + 1) (val.length - (i + 1))) ∧
    (∀ i c, val[i]? = some c → isSpecial c = true → val[i - 1]? = some '\\' →
      renderAt val i = escTwo c) := by
  have h0 : headSpecial val = false := head_not_special_of_ok val out hlen h
  have hout : out = blocksBetween val 0 val.length := by
    have he := escape_eq_blocks val hlen h0
    rw [h] at he
    exact Except.ok.inj he
  refine ⟨hout, ?_, ?_⟩
  · intro i c hi hq hreq
    have hlt : i < val.length := by
      by_contra hge
      rw [List.getElem?_eq_none (by omega)] at hi
      exact absurd hi (by simp)
    have hq3 : c = '\'' ∨ c = '"' ∨ c = '\\' := by
      rcases Bool.or_eq_true_iff.mp hq with hq' | hq'
      · rcases Bool.or_eq_true_iff.mp hq' with hq'' | hq''
        · exact Or.inl (by simpa using hq'')
        · exact Or.inr (Or.inl (by simpa using hq''))
      · exact Or.inr (Or.inr (by simpa using hq'))
    have hs : isSpecial c = true := by
      rcases hq3 with hcc | hcc | hcc <;> rw [hcc] <;> decide
    have hesc : escTwo c = [c] := by
      rcases hq3 with hcc | hcc | hcc <;> rw [hcc] <;> rfl
    have hi0 : i ≠ 0 := by
      intro h00
      subst h00
      have hh := headSpecial_eq val c hi
      rw [h0, hs] at hh
      exact absurd hh (by simp)
    have hj : i - 1 < val.length := by omega
    have hprev : val[i - 1]? = some val[i - 1] := List.getElem?_eq_getElem hj
    have htakei : val.take i = val.take (i - 1) ++ [val[i - 1]] := by
      have ht := take_snoc val (i - 1) hj
      have h2 : i - 1 + 1 = i := by omega
      rw [h2] at ht
      exact ht
    have hdecomp : out = blocksBetween val 0 i ++ renderAt val i ++
        blocksBetween val (i + 1) (val.length - (i + 1)) := by
      rw [hout]
      have hsum : val.length = i + (val.length - i) := by omega
      have hsplit := blocksBetween_add val i (val.length - i) 0
      rw [Nat.zero_add] at hsplit
      have hsum2 : val.length - i = (val.length - (i + 1)) + 1 := by omega
      have htail : blocksBetween val i ((val.length - (i + 1)) + 1) =
          renderAt val i ++ blocksBetween val (i + 1) (val.length - (i + 1)) := rfl
      calc blocksBetween val 0 val.length
          = blocksBetween val 0 (i + (val.length - i)) := by rw [← hsum]
        _ = blocksBetween val 0 i ++ blocksBetween val i (val.length - i) := hsplit
        _ = blocksBetween val 0 i ++ renderAt val i ++
              blocksBetween val (i + 1) (val.length - (i + 1)) := by
              rw [hsum2, htail, List.append_assoc]
    by_cases hpc : val[i - 1] = '\\'
    · have hodd : bsRun (val.take (i - 1)) % 2 = 1 := by
        simp only [precededByUnescapedBackslash, Bool.and_eq_false_iff] at hreq
        rcases hreq with hax | hax
        · rcases hax with hbx | hbx
          · exact absurd hbx (by simp [hi0])
          · rw [hprev, hpc] at hbx
            exact absurd hbx (by simp)
        · have hne0 : ¬ bsRun (val.take (i - 1)) % 2 = 0 := by
            simpa using hax
          omega
      have hprevbs : val[i - 1]? = some '\\' := by rw [hprev, hpc]
      have hrender : renderAt val i = [c] := by
        simp only [renderAt, hi, hs, if_true, if_pos hprevbs, hesc]
        rfl
      have hti : bsRun (val.take i) = bsRun (val.take (i - 1)) + 1 := by
        rw [htakei, bsRun_snoc, if_pos hpc]
      have hblocks := bsRun_blocks val h0 i (by omega)
      rw [if_neg (by omega)] at hblocks
      refine ⟨?_, ?_, hdecomp⟩
      · rw [hrender]
        simp only [List.dropLast_single, List.append_nil]
        rw [hblocks]
        omega
      · rw [hrender]
        rfl
    · have hprevne : ¬ val[i - 1]? = some '\\' := by
        rw [hprev]
        simp [hpc]
      have hrender : renderAt val i = ['\\', c] := by
        simp only [renderAt, hi, hs, if_true, if_neg hprevne, hesc]
        rfl
      have hti : bsRun (val.take i) = 0 := by
        rw [htakei, bsRun_snoc, if_neg hpc]
      have hblocks := bsRun_blocks val h0 i (by omega)
      rw [if_pos hti] at hblocks
      refine ⟨?_, ?_, hdecomp⟩
      · rw [hrender]
        have hdl : (['\\', c] : List Char).dropLast = ['\\'] := rfl
        rw [hdl, bsRun_snoc_bs, hblocks]
      · rw [hrender]
        rfl
  · intro i c hi hs hprevbs
    simp [renderAt, hi, hs, hprevbs]

/-- Witness for C3 at the input `a'`: the quote requires escaping, its
block ends with the quote, and the backslash run before it in the output
is odd (it is escaped). -/
theorem escape_no_unescaped_requiring_witness :
    (['a', '\''] : List Char).length < two64 ∧
    escape_string ['a', '\''] = .ok ['a', '\\', '\''] ∧
    bsRun (blocksBetween ['a', '\''] 0 1 ++ (renderAt ['a', '\''] 1).dropLast) % 2 = 1 ∧
    (renderAt ['a', '\''] 1).getLast? = some '\'' :=
  ⟨by decide, rfl,
   ((escape_no_unescaped_requiring ['a', '\''] ['a', '\\', '\''] (by decide) rfl).2.1
     1 '\'' rfl (by decide) (by decide)).1,
   ((escape_no_unescaped_requiring ['a', '\''] ['a', '\\', '\''] (by decide) rfl).2.1
     1 '\'' rfl (by decide) (by decide)).2.1⟩

/-- Claim C4 (code bug).  When the query succeeds at the native level
but `mysql_use_result` yields no result set, `use_result`'s `if
(!result) { Result{}; }` constructs and discards a temporary instead of
returning it, so control falls through to `Result{result}` and
`mysql_num_fields` is invoked on the null pointer — modelled as
`Except.error` — rather than the claimed falsy `Result` with no native
result-set call on the absent handle. -/
theorem use_result_null_calls_num_fields :
    mysql.query oracleC4 (some 1) sqlText = ([], .error ()) ∧
    mysql.use_result oracleC4 (some 1) = .error () :=
  ⟨rfl, rfl⟩

/-- Claim C5, counterexample.  A failing `mysql_stmt_prepare` makes
`prepare` return the falsy `Stmt{}` with an empty stderr: nothing is
printed, contradicting the claim that every statement-preparation
failure is reported by printing the native error text. -/
theorem prepare_failure_prints_nothing :
    mysql.prepare oracleC5 (some 0) sqlText = ([], .ok Stmt.empty) ∧
    Stmt.toBool Stmt.empty = false :=
  ⟨rfl, rfl⟩

/-- Claim C5, amended.  A statement-preparation failure returns an
empty/falsy `Stmt` and prints nothing; a query-execution failure prints
`"Error: "` plus the native error text and returns an empty `Result`;
a connection failure at the native connect call prints
`"Failed to connect to database: Error: "` plus the native error text
and returns `false` with the handle closed. -/
theorem failure_reporting_amended :
    (∀ (o : NativeOracle) (h sh : Nat) (s : String), o.stmtInit h = some sh →
      o.stmtPrepare sh s ≠ 0 → mysql.prepare o (some h) s = ([], .ok Stmt.empty)) ∧
    (∀ (o : NativeOracle) (h : Nat) (s : String), o.realQuery h s ≠ 0 →
      mysql.query o (some h) s = (["Error: " ++ o.errorText h ++ "\n"], .ok Result.empty)) ∧
    (∀ (o : NativeOracle) (h0 : Option Nat) (hi : Nat), o.connInit = some hi →
      o.realConnect hi = none →
      mysql.connect o h0 =
        (false, none, ["Failed to connect to database: Error: " ++ o.errorText hi ++ "\n"])) := by
  refine ⟨?_, ?_, ?_⟩
  · intro o h sh s h1 h2
    simp [mysql.prepare, h1, h2]
  · intro o h s h1
    simp [mysql.query, h1]
  · intro o h0 hi h1 h2
    simp [mysql.connect, h1, h2]

/-- Witness for C5's amended theorem: a concrete oracle on which
`mysql_stmt_prepare`, `mysql_real_query` and `mysql_real_connect` all
fail; `prepare` prints nothing, `query` and `connect` print the native
error text. -/
theorem failure_reporting_amended_witness :
    oracleC5.stmtInit 0 = some 7 ∧ oracleC5.stmtPrepare 7 sqlText ≠ 0 ∧
    oracleC5.realQuery 0 sqlText ≠ 0 ∧ oracleC5.connInit = some 3 ∧
    oracleC5.realConnect 3 = none ∧
    mysql.prepare oracleC5 (some 0) sqlText = ([], .ok Stmt.empty) ∧
    mysql.query oracleC5 (some 0) sqlText =
      (["Error: " ++ oracleC5.errorText 0 ++ "\n"], .ok Result.empty) ∧
    mysql.connect oracleC5 none =
      (false, none,
        ["Failed to connect to database: Error: " ++ oracleC5.errorText 3 ++ "\n"]) :=
  ⟨rfl, by decide, by decide, rfl, rfl,
   failure_reporting_amended.1 oracleC5 0 7 sqlText rfl (by decide),
   failure_reporting_amended.2.1 oracleC5 0 sqlText (by decide),
   failure_reporting_amended.2.2 oracleC5 none 3 rfl rfl⟩

/-- Claim C6, counterexample.  A default-constructed `Result` does
evaluate false, but `fetch_row` on it passes the null `res` straight to
`mysql_fetch_row` (undefined behaviour, modelled as `Except.error`)
instead of yielding an empty/falsy `Row` without erroring. -/
theorem fetch_row_on_empty_result_errors :
    Result.toBool Result.empty = false ∧
    Result.fetch_row baseOracle Result.empty = .error () :=
  ⟨rfl, rfl⟩

/-- Claim C6, amended.  A `Result` that is default-constructed or
produced from a failed query evaluates false; calling `fetch_row` on any
`Result` holding no native handle invokes the native row fetch on the
absent handle (undefined behaviour, modelled as `Except.error`) rather
than returning an empty `Row`. -/
theorem empty_result_falsy_and_fetch_ub :
    Result.toBool Result.empty = false ∧
    (∀ (o : NativeOracle) (h : Nat) (s : String), o.realQuery h s ≠ 0 →
      (mysql.query o (some h) s).2 = .ok Result.empty) ∧
    (∀ (o : NativeOracle) (r : Result), r.res = none →
      Result.fetch_row o r = .error ()) := by
  refine ⟨rfl, ?_, ?_⟩
  · intro o h s h1
    simp [mysql.query, h1]
  · intro o r hr
    simp [Result.fetch_row, hr, mysql_fetch_row_native]

/-- Witness for C6's amended theorem: a concrete failed query yields
`Result{}`, which is falsy, and `fetch_row` on it errors. -/
theorem empty_result_falsy_and_fetch_ub_witness :
    oracleC5.realQuery 0 sqlText ≠ 0 ∧ Result.empty.res = none ∧
    (mysql.query oracleC5 (some 0) sqlText).2 = .ok Result.empty ∧
    Result.fetch_row baseOracle Result.empty = .error () :=
  ⟨by decide, rfl,
   empty_result_falsy_and_fetch_ub.2.1 oracleC5 0 sqlText (by decide),
   empty_result_falsy_and_fetch_ub.2.2 baseOracle Result.empty rfl⟩

/-- Helper arithmetic fact for C7: the length `2^31` does not survive
the `size_t` → `int` → `unsigned long` conversion chain. -/
theorem uLongOfInt_toCInt_wrap : uLongOfInt (toCInt (2 ^ 31)) = 2 ^ 64 - 2 ^ 31 := by
  decide

/-- Claim C7, counterexample.  The string overload of `bind_param`
passes `x.size()` through the raw overload's `int buffer_length`
parameter; for a string of `2^31` bytes the narrowed value is
`-2^31`, which widens to `2^64 - 2^31` in the slot's
`unsigned long buffer_length` — not the exact byte size the claim
requires. -/
theorem bind_str_length_wraps :
    Stmt.bind_param_str stmtOneSlot 0 bigStr =
      .ok { stmt := some 1, count := 1,
            params := some [{ buffer_type := some .MYSQL_TYPE_STRING,
                              buffer := .strBytes bigStr,
                              buffer_length := 2 ^ 64 - 2 ^ 31,
                              is_null := none,
                              length := .selfBufferLength }],
            str_length := 0 } ∧
    (2 ^ 64 - 2 ^ 31 : Nat) ≠ 2 ^ 31 := by
  constructor
  · have hlen : bigStr.length = 2 ^ 31 := by
      rw [bigStr, List.length_replicate]
    simp only [Stmt.bind_param_str, stmtOneSlot, stringSlotFor, Stmt.bind_param_raw_slot, hlen]
    norm_num
    decide
  · decide

/-- Claim C7, amended.  For every string of fewer than `2^31` bytes
(including ones with embedded null bytes), the string overload of
`bind_param` writes slot `i` with the exact byte count as
`buffer_length`, with the `length` pointer designating that same value,
and with the buffer pointing at the string's bytes. -/
theorem bind_str_exact_length (s : Stmt) (ps : List MYSQL_BIND) (i : Nat) (x : List Char)
    (hps : s.params = some ps) (hi : i < ps.length) (hx : x.length < 2 ^ 31) :
    Stmt.bind_param_str s i x = .ok { s with params := some (ps.set i (stringSlotFor x)) } ∧
    (stringSlotFor x).buffer_length = x.length ∧
    (stringSlotFor x).designatedLength = some x.length ∧
    (stringSlotFor x).buffer = .strBytes x := by
  have h1 : toCInt x.length = (x.length : Int) := by
    unfold toCInt; omega
  have h2 : uLongOfInt ((x.length : Nat) : Int) = x.length := by
    unfold uLongOfInt; omega
  refine ⟨by simp [Stmt.bind_param_str, hps, hi], ?_, ?_, ?_⟩
  · simp [stringSlotFor, Stmt.bind_param_raw_slot, h1, h2]
  · simp [MYSQL_BIND.designatedLength, stringSlotFor, Stmt.bind_param_raw_slot, h1, h2]
  · simp [stringSlotFor, Stmt.bind_param_raw_slot]

/-- Witness for C7's amended theorem: binding the three-byte string
`a`, NUL, `b` (an embedded null byte) records byte length 3 both as the
buffer length and behind the length pointer. -/
theorem bind_str_exact_length_witness :
    stmtOneSlot.params = some [MYSQL_BIND.zero] ∧ (0 : Nat) < 1 ∧
    (['a', '\x00', 'b'] : List Char).length < 2 ^ 31 ∧
    Stmt.bind_param_str stmtOneSlot 0 ['a', '\x00', 'b'] =
      .ok { stmtOneSlot with
            params := some ([MYSQL_BIND.zero].set 0 (stringSlotFor ['a', '\x00', 'b'])) } ∧
    (stringSlotFor ['a', '\x00', 'b']).buffer_length = 3 ∧
    (stringSlotFor ['a', '\x00', 'b']).designatedLength = some 3 :=
  ⟨rfl, by decide, by decide,
   (bind_str_exact_length stmtOneSlot [MYSQL_BIND.zero] 0 ['a', '\x00', 'b']
     rfl (by decide) (by decide)).1,
   (bind_str_exact_length stmtOneSlot [MYSQL_BIND.zero] 0 ['a', '\x00', 'b']
     rfl (by decide) (by decide)).2.1,
   (bind_str_exact_length stmtOneSlot [MYSQL_BIND.zero] 0 ['a', '\x00', 'b']
     rfl (by decide) (by decide)).2.2.1⟩

/-- Claim C8.  Moving a `Result` or `Stmt` that holds a native handle —
by move construction or move assignment into an object not holding that
handle — leaves the source falsy and the destination holding the
original handle, and the destructors of both (plus, for `Result`
assignment, the unconditional free of the target's previous pointer)
release that handle exactly once. -/
theorem move_transfers_and_releases_once
    (r d : Result) (h : Nat) (hr : r.res = some h) (hd : d.res ≠ some h)
    (s t : Stmt) (g : Nat) (hs : s.stmt = some g) (ht : t.stmt ≠ some g) :
    moveReleaseSpec r d h s t g := by
  unfold moveReleaseSpec
  refine ⟨⟨?_, ?_, ?_⟩, ⟨?_, ?_, ?_⟩, ⟨?_, ?_, ?_⟩, ⟨?_, ?_, ?_⟩⟩
  · simp [Result.moveCtor, hr]
  · simp [Result.moveCtor, Result.toBool]
  · simp [Result.moveCtor, Result.dtor, hr, List.count_cons]
  · simp [Result.moveAssign, hr]
  · simp [Result.moveAssign, Result.toBool]
  · simp [Result.moveAssign, Result.dtor, hr, List.count_cons, hd]
  · simp [Stmt.moveCtor, hs]
  · simp [Stmt.moveCtor, Stmt.toBool]
  · simp [Stmt.moveCtor, Stmt.dtor, hs, List.count_cons]
  · simp [Stmt.moveAssign, hs]
  · simp [Stmt.moveAssign, Stmt.toBool]
  · simp [Stmt.moveAssign, Stmt.dtor, hs, List.count_cons]

/-- Witness for C8 with concrete handles: `Result` 5 moved into a
`Result` holding 4, `Stmt` 7 moved into a default `Stmt`. -/
theorem move_transfers_and_releases_once_witness :
    resA.res = some 5 ∧ resB.res ≠ some 5 ∧ stmtA.stmt = some 7 ∧
    Stmt.empty.stmt ≠ some 7 ∧ moveReleaseSpec resA resB 5 stmtA Stmt.empty 7 :=
  ⟨rfl, by decide, rfl, by decide,
   move_transfers_and_releases_once resA resB 5 rfl (by decide)
     stmtA Stmt.empty 7 rfl (by decide)⟩

/-- Claim C9 (code bug).  `Row::operator=(Row&&)` calls the generic
`std::swap`, which itself move-assigns `Row`s, so the operator calls
itself forever: for every recursion budget and every pair of `Row`
values the call fails to complete — it never terminates, let alone
leaves the target holding the source's pointers. -/
theorem row_move_assign_never_returns :
    ∀ (fuel : Nat) (a b : Row), Row.moveAssignFuel fuel a b = none := by
  intro fuel
  induction fuel with
  | zero => intro a b; rfl
  | succ n ih => intro a b; simp [Row.moveAssignFuel, ih]

/-- Claim C10.  `insert_id` and `affected_rows` are guarded: with an
absent handle they return `-1` without touching the native library.
`more_results` and `next_result` have no guard and no sentinel: they
pass the handle to the native call unconditionally, so an absent handle
reaches the native library (undefined behaviour, modelled as
`Except.error`), and with a valid handle the native value is returned
unchanged. -/
theorem multi_result_calls_unguarded :
    (∀ o : NativeOracle, mysql.insert_id o none = -1) ∧
    (∀ o : NativeOracle, mysql.affected_rows o none = -1) ∧
    (∀ o : NativeOracle, mysql.more_results o none = .error ()) ∧
    (∀ o : NativeOracle, mysql.next_result o none = .error ()) ∧
    (∀ (o : NativeOracle) (h : Nat),
      mysql.more_results o (some h) = .ok (if o.moreResults h then 1 else 0)) ∧
    (∀ (o : NativeOracle) (h : Nat), mysql.next_result o (some h) = .ok (o.nextResult h)) :=
  ⟨fun _ => rfl, fun _ => rfl, fun _ => rfl, fun _ => rfl, fun _ _ => rfl, fun _ _ => rfl⟩
